import Mathlib

/-
Verification of the StarMap sky-map script (src/dodo.py).

The script computes, for an observer (latitude, longitude) and a UTC
instant, the altitude/azimuth of five solar-system bodies and of the
bright Hipparcos stars, keeps the ones above the horizon, and renders
them on a polar chart.  The coordinate transformation itself is
delegated whole to the skyfield library; we model it as an abstract
ephemeris function and embed the remaining logic (filters, marker
construction, chart assembly, the Dash callback) faithfully.

Altitudes, azimuths and magnitudes are modelled as rationals (every
Python float is a dyadic rational); the star marker size, which uses
np.exp, lives in the reals.
-/

namespace StarMap

/-- One row of the Hipparcos catalog dataframe, as used by the script:
the HIP identifier (the dataframe index) and the visual magnitude.
The catalog sky position is consumed only by the ephemeris collaborator,
which receives the whole entry. -/
structure StarEntry where
  hip : Nat
  magnitude : ℚ
deriving DecidableEq

/-- The observer location built by `earth + Topos(latitude_degrees=lat,
longitude_degrees=lon)`. -/
structure Topos where
  latitude_degrees : ℚ
  longitude_degrees : ℚ
deriving DecidableEq

/-- The instant built by `ts.utc(year, month, day, hour, 0)`; the script
always passes minute = 0. -/
structure Instant where
  year : ℤ
  month : ℤ
  day : ℤ
  hour : ℚ
  minute : ℚ
deriving DecidableEq

/-- A target passed to `to_altaz`: either a named solar-system body from
the `bodies` dict, or a catalog star (`Star.from_dataframe(row)`). -/
inductive Target where
  | body (name : String)
  | star (entry : StarEntry)
deriving DecidableEq

/-- The external skyfield pipeline
`location.at(t).observe(obj).apparent().altaz()`, abstracted: given a
target, an observer and an instant it returns (altitude_degrees,
azimuth_degrees).  The script only calls it; its internals are out of
scope. -/
def Ephemeris : Type := Target → Topos → Instant → ℚ × ℚ

/-- Python `to_altaz(obj, location, t)`: delegates to the ephemeris and
returns `(alt.degrees, az.degrees)`. -/
def to_altaz (E : Ephemeris) (obj : Target) (location : Topos) (t : Instant) : ℚ × ℚ :=
  E obj location t

/-- Python `planet_ids`: the NAIF ids the `bodies` dict is built from. -/
def planet_ids : List (String × Nat) :=
  [("Mercury", 199), ("Venus", 299), ("Mars", 499), ("Moon", 301), ("Sun", 10)]

/-- Python `selected_planets` inside `make_sky_map`. -/
def selected_planets : List String :=
  ["Mercury", "Venus", "Mars", "Moon", "Sun"]

/-- The planet-collection loop of `make_sky_map` (lines 52-56): for each
selected planet, project it and append `(name, alt, az)` when `alt > 0`. -/
def planet_data (E : Ephemeris) (location : Topos) (t : Instant) :
    List (String × ℚ × ℚ) :=
  selected_planets.foldl (fun acc name =>
    let p := to_altaz E (Target.body name) location t
    if 0 < p.1 then acc ++ [(name, p.1, p.2)] else acc) []

/-- Python line 59: bright_stars is the subset of the catalog rows whose
magnitude column is strictly below 6. -/
def bright_stars (stars : List StarEntry) : List StarEntry :=
  stars.filter (fun row => decide (row.magnitude < 6))

/-- The star-collection loop of `make_sky_map` (lines 60-65): for each
bright-star row, project it and append `(magnitude, alt, az, hip)` when
`alt > 0`. -/
def star_data (E : Ephemeris) (stars : List StarEntry) (location : Topos)
    (t : Instant) : List (ℚ × ℚ × ℚ × Nat) :=
  (bright_stars stars).foldl (fun acc row =>
    let p := to_altaz E (Target.star row) location t
    if 0 < p.1 then acc ++ [(row.magnitude, p.1, p.2, row.hip)] else acc) []

/-- Python `size = max(0.5, 12 * np.exp(-0.4 * (mag - 1.0)))` (line 74). -/
noncomputable def star_size (mag : ℚ) : ℝ :=
  max 0.5 (12 * Real.exp (-0.4 * ((mag : ℝ) - 1.0)))

/-- Marker outline, `line=dict(color="black", width=1)`. -/
structure MarkerLine where
  color : String
  width : ℚ
deriving DecidableEq

/-- A Plotly `marker=dict(...)`: size, color, and the optional keys the
script sets (opacity for stars, outline for planets). -/
structure Marker where
  size : ℝ
  color : String
  opacity : Option ℚ
  markerline : Option MarkerLine

/-- One `go.Scatterpolar(...)` trace: singleton `r` and `theta` lists, a
mode string, a marker, and the optional hover text (kept structured as
the HIP id and magnitude it is formatted from). -/
structure Scatterpolar where
  r : List ℚ
  theta : List ℚ
  mode : String
  marker : Marker
  hovertext : Option (Nat × ℚ)

/-- Plotly radial axis settings used in the layout. -/
structure RadialAxis where
  visible : Bool
  range : ℚ × ℚ
  showgrid : Bool
deriving DecidableEq

/-- Plotly angular axis settings used in the layout. -/
structure AngularAxis where
  direction : String
  rotation : ℚ
  showline : Bool
  showticklabels : Bool
  showgrid : Bool
deriving DecidableEq

/-- Plotly `polar=dict(...)` settings used in the layout. -/
structure PolarSettings where
  bgcolor : String
  radialaxis : RadialAxis
  angularaxis : AngularAxis
deriving DecidableEq

/-- The figure layout fields set by `fig.update_layout` (lines 102-112). -/
structure Layout where
  polar : PolarSettings
  showlegend : Bool
  paper_bgcolor : String
  plot_bgcolor : String
deriving DecidableEq

/-- A Plotly figure: the ordered trace list and the layout (none until
`update_layout` is called; `go.Figure()` starts with no traces). -/
structure Figure where
  traces : List Scatterpolar
  layout : Option Layout

/-- Python `fig.add_trace(...)`: appends one trace. -/
def Figure.add_trace (fig : Figure) (tr : Scatterpolar) : Figure :=
  { fig with traces := fig.traces ++ [tr] }

/-- The layout installed by `fig.update_layout` (lines 102-112): dark
background, hidden radial axis with range [0, 90], clockwise angular
axis rotated 180 degrees, no legend. -/
def sky_layout : Layout :=
  { polar :=
      { bgcolor := "black"
        radialaxis := { visible := false, range := (0, 90), showgrid := false }
        angularaxis :=
          { direction := "clockwise", rotation := 180, showline := false
            showticklabels := false, showgrid := false } }
    showlegend := false
    paper_bgcolor := "black"
    plot_bgcolor := "black" }

/-- Python `planet_colors` (lines 85-91). -/
def planet_colors : List (String × String) :=
  [("Mercury", "lightgray"), ("Venus", "lightgray"), ("Mars", "lightgray"),
   ("Jupiter", "lightgray"), ("Saturn", "lightgray")]

/-- The star trace built in the loop at lines 73-82. -/
noncomputable def star_trace (mag alt az : ℚ) (hip : Nat) : Scatterpolar :=
  { r := [90 - alt]
    theta := [az]
    mode := "markers"
    marker :=
      { size := star_size mag, color := "white", opacity := some 0.8
        markerline := none }
    hovertext := some (hip, mag) }

/-- The planet trace built in the loop at lines 92-99; the color is
`planet_colors.get(name, "lightgray")`. -/
noncomputable def planet_trace (name : String) (alt az : ℚ) : Scatterpolar :=
  { r := [90 - alt]
    theta := [az]
    mode := "markers+text"
    marker :=
      { size := 15, color := (planet_colors.lookup name).getD "lightgray"
        opacity := none
        markerline := some { color := "black", width := 1 } }
    hovertext := none }

/-- Python `make_sky_map(lat, lon, year, month, day, hour)` (lines
45-114), with the module-level ephemeris and star catalog passed
explicitly: collect the visible planets and bright stars, add one trace
per star then one per planet, and install the dark layout. -/
noncomputable def make_sky_map (E : Ephemeris) (stars : List StarEntry)
    (lat lon : ℚ) (year month day : ℤ) (hour : ℚ) : Figure :=
  let location : Topos := { latitude_degrees := lat, longitude_degrees := lon }
  let t : Instant := { year := year, month := month, day := day, hour := hour, minute := 0 }
  let pd := planet_data E location t
  let sd := star_data E stars location t
  let fig : Figure := { traces := [], layout := none }
  let fig := sd.foldl (fun fig q => fig.add_trace (star_trace q.1 q.2.1 q.2.2.1 q.2.2.2)) fig
  let fig := pd.foldl (fun fig q => fig.add_trace (planet_trace q.1 q.2.1 q.2.2)) fig
  { fig with layout := some sky_layout }

/-- Python `locations` (lines 121-166): the fixed city table. -/
def locations : List (String × (ℚ × ℚ)) :=
  [("San Francisco", (37.7749, -122.4194)),
   ("New York", (40.7128, -74.0060)),
   ("Toronto", (43.651070, -79.347015)),
   ("Mexico City", (19.4326, -99.1332)),
   ("Buenos Aires", (-34.6037, -58.3816)),
   ("Rio de Janeiro", (-22.9068, -43.1729)),
   ("Santiago", (-33.4489, -70.6693)),
   ("London", (51.5074, -0.1278)),
   ("Paris", (48.8566, 2.3522)),
   ("Berlin", (52.5200, 13.4050)),
   ("Rome", (41.9028, 12.4964)),
   ("Moscow", (55.7558, 37.6173)),
   ("Cairo", (30.0444, 31.2357)),
   ("Cape Town", (-33.9249, 18.4241)),
   ("Nairobi", (-1.2921, 36.8219)),
   ("Lagos", (6.5244, 3.3792)),
   ("Istanbul", (41.0082, 28.9784)),
   ("Dubai", (25.276987, 55.296249)),
   ("Jerusalem", (31.7683, 35.2137)),
   ("Tokyo", (35.6762, 139.6503)),
   ("Beijing", (39.9042, 116.4074)),
   ("New Delhi", (28.6139, 77.2090)),
   ("Bangkok", (13.7563, 100.5018)),
   ("Singapore", (1.3521, 103.8198)),
   ("Sydney", (-33.8688, 151.2093)),
   ("Auckland", (-36.8485, 174.7633)),
   ("Honolulu", (21.3069, -157.8583)),
   ("Reykjavik", (64.1355, -21.8954)),
   ("Anchorage", (61.2181, -149.9003))]

/-- Python `update_map(city, date, hour)` (lines 208-212).  The line
`lat, lon = locations[city]` raises KeyError when the key is absent;
that fallible lookup is embedded as Except, with the date already split
into its components (`datetime.fromisoformat` is standard-library
parsing, out of scope). -/
noncomputable def update_map (E : Ephemeris) (stars : List StarEntry)
    (city : String) (year month day : ℤ) (hour : ℚ) : Except String Figure :=
  match locations.lookup city with
  | none => Except.error "KeyError"
  | some (lat, lon) => Except.ok (make_sky_map E stars lat lon year month day hour)

/-- The process-wide shared state `make_sky_map` reads: the star catalog
loaded once at startup (the ephemeris handles are the `E` argument). -/
structure SkyState where
  stars : List StarEntry

/-- One invocation of `make_sky_map` with the shared state threaded
explicitly: the Python body only reads `stars` and `bodies`, so the
state comes back unchanged next to the produced figure. -/
noncomputable def run_make_sky_map (E : Ephemeris) (s : SkyState)
    (lat lon : ℚ) (year month day : ℤ) (hour : ℚ) : SkyState × Figure :=
  (s, make_sky_map E s.stars lat lon year month day hour)

/-- The append-inside-if folding pattern of the two collection loops,
rewritten as filter-then-map. -/
theorem foldl_if_filter_map {α β : Type} (P : α → Prop) [DecidablePred P]
    (g : α → β) (l : List α) :
    ∀ acc : List β,
      l.foldl (fun acc a => if P a then acc ++ [g a] else acc) acc
        = acc ++ (l.filter (fun a => decide (P a))).map g := by
  induction l with
  | nil => intro acc; simp
  | cons a l ih =>
      intro acc
      by_cases h : P a <;> simp [List.filter_cons, h, ih]

/-- planet_data is the visible subset of selected_planets in their fixed
order, paired with their projections. -/
theorem planet_data_eq (E : Ephemeris) (location : Topos) (t : Instant) :
    planet_data E location t
      = (selected_planets.filter
            (fun n => decide (0 < (to_altaz E (Target.body n) location t).1))).map
          (fun n => (n, to_altaz E (Target.body n) location t)) := by
  unfold planet_data
  exact foldl_if_filter_map
    (fun n => 0 < (to_altaz E (Target.body n) location t).1)
    (fun n => (n, to_altaz E (Target.body n) location t)) selected_planets []

/-- star_data is the visible subset of bright_stars in catalog order,
with magnitude, projection and HIP id. -/
theorem star_data_eq (E : Ephemeris) (stars : List StarEntry) (location : Topos)
    (t : Instant) :
    star_data E stars location t
      = ((bright_stars stars).filter
            (fun row => decide (0 < (to_altaz E (Target.star row) location t).1))).map
          (fun row => (row.magnitude, (to_altaz E (Target.star row) location t).1,
                       (to_altaz E (Target.star row) location t).2, row.hip)) := by
  unfold star_data
  exact foldl_if_filter_map
    (fun row => 0 < (to_altaz E (Target.star row) location t).1)
    (fun row => (row.magnitude, (to_altaz E (Target.star row) location t).1,
                 (to_altaz E (Target.star row) location t).2, row.hip))
    (bright_stars stars) []

/-- Folding add_trace over a list appends the corresponding traces. -/
theorem foldl_add_trace {α : Type} (mk : α → Scatterpolar) (l : List α) :
    ∀ fig : Figure,
      l.foldl (fun fig q => fig.add_trace (mk q)) fig
        = { fig with traces := fig.traces ++ l.map mk } := by
  induction l with
  | nil => intro fig; simp
  | cons a l ih =>
      intro fig
      rw [List.foldl_cons, ih]
      simp [Figure.add_trace]

/-- make_sky_map unfolded: the star traces in star_data order, then the
planet traces in planet_data order, under the fixed dark layout. -/
theorem make_sky_map_eq (E : Ephemeris) (stars : List StarEntry)
    (lat lon : ℚ) (year month day : ℤ) (hour : ℚ) :
    make_sky_map E stars lat lon year month day hour
      = { traces :=
            (star_data E stars ⟨lat, lon⟩ ⟨year, month, day, hour, 0⟩).map
              (fun q => star_trace q.1 q.2.1 q.2.2.1 q.2.2.2)
            ++ (planet_data E ⟨lat, lon⟩ ⟨year, month, day, hour, 0⟩).map
              (fun q => planet_trace q.1 q.2.1 q.2.2)
          layout := some sky_layout } := by
  simp only [make_sky_map]
  rw [foldl_add_trace, foldl_add_trace]
  simp

/-- Every collected planet entry has strictly positive altitude. -/
theorem planet_data_alt_pos (E : Ephemeris) (location : Topos) (t : Instant) :
    ∀ q ∈ planet_data E location t, 0 < q.2.1 := by
  intro q hq
  rw [planet_data_eq] at hq
  rcases List.mem_map.mp hq with ⟨n, hn, rfl⟩
  rcases List.mem_filter.mp hn with ⟨-, hp⟩
  exact of_decide_eq_true hp

/-- Every collected star entry has strictly positive altitude. -/
theorem star_data_alt_pos (E : Ephemeris) (stars : List StarEntry)
    (location : Topos) (t : Instant) :
    ∀ q ∈ star_data E stars location t, 0 < q.2.1 := by
  intro q hq
  rw [star_data_eq] at hq
  rcases List.mem_map.mp hq with ⟨row, hrow, rfl⟩
  rcases List.mem_filter.mp hrow with ⟨-, hp⟩
  exact of_decide_eq_true hp

/-- Filtering the catalog on magnitude twice is the same as once. -/
theorem bright_stars_idem (stars : List StarEntry) :
    bright_stars (bright_stars stars) = bright_stars stars := by
  unfold bright_stars
  rw [List.filter_filter]
  simp

/-- Exponential lower bound used for the size floor: exp x is at least
24 from x = 7.6 on. -/
theorem twentyfour_le_exp (x : ℝ) (hx : (7.6 : ℝ) ≤ x) : (24 : ℝ) ≤ Real.exp x := by
  have h1 : (2.9 : ℝ) ≤ Real.exp 1.9 := by
    have h := Real.add_one_le_exp (1.9 : ℝ)
    linarith
  have h2 : Real.exp (7.6 : ℝ) = Real.exp 1.9 ^ (4 : ℕ) := by
    rw [← Real.exp_nat_mul]
    norm_num
  have h3 : (24 : ℝ) ≤ Real.exp 7.6 := by
    rw [h2]
    calc (24 : ℝ) ≤ 2.9 ^ (4 : ℕ) := by norm_num
      _ ≤ Real.exp 1.9 ^ (4 : ℕ) := pow_le_pow_left₀ (by norm_num) h1 4
  exact h3.trans (Real.exp_le_exp.mpr hx)

/-- From magnitude 20 on, the exponential term is below the 0.5 floor,
so the marker size is exactly 0.5. -/
theorem star_size_eq_half (m : ℚ) (hm : (20 : ℚ) ≤ m) : star_size m = 0.5 := by
  have hmr : (20 : ℝ) ≤ (m : ℝ) := by exact_mod_cast hm
  have hy : (7.6 : ℝ) ≤ 0.4 * ((m : ℝ) - 1.0) := by linarith
  have h24 := twentyfour_le_exp _ hy
  have hneg : (-0.4 : ℝ) * ((m : ℝ) - 1.0) = -(0.4 * ((m : ℝ) - 1.0)) := by ring
  have hinv : (Real.exp (0.4 * ((m : ℝ) - 1.0)))⁻¹ ≤ (24 : ℝ)⁻¹ :=
    inv_anti₀ (by norm_num) h24
  have hbound : 12 * Real.exp (-0.4 * ((m : ℝ) - 1.0)) ≤ 0.5 := by
    rw [hneg, Real.exp_neg]
    norm_num at hinv ⊢
    linarith
  exact max_eq_left hbound

/-- Size of a magnitude-1 star: the exponential is exp 0 = 1, so the
size is 12. -/
theorem star_size_one : star_size 1 = 12 := by
  have h : (-0.4 : ℝ) * (((1 : ℚ) : ℝ) - 1.0) = 0 := by norm_num
  rw [star_size, h, Real.exp_zero, mul_one]
  exact max_eq_right (by norm_num)

/-- The unclamped exponential term is strictly decreasing in magnitude. -/
theorem star_size_exp_strict (m1 m2 : ℚ) (h : m1 < m2) :
    12 * Real.exp (-0.4 * ((m2 : ℝ) - 1.0))
      < 12 * Real.exp (-0.4 * ((m1 : ℝ) - 1.0)) := by
  have hr : (m1 : ℝ) < (m2 : ℝ) := by exact_mod_cast h
  have harg : (-0.4 : ℝ) * ((m2 : ℝ) - 1.0) < -0.4 * ((m1 : ℝ) - 1.0) := by linarith
  exact mul_lt_mul_of_pos_left (Real.exp_lt_exp.mpr harg) (by norm_num)

/-- The clamped size is monotonically non-increasing in magnitude. -/
theorem star_size_antitone (m1 m2 : ℚ) (h : m1 < m2) :
    star_size m2 ≤ star_size m1 :=
  max_le_max le_rfl (le_of_lt (star_size_exp_strict m1 m2 h))

/-- Above the floor the clamped size is strictly decreasing. -/
theorem star_size_strict (m1 m2 : ℚ) (h : m1 < m2) (h2 : 0.5 < star_size m1) :
    star_size m2 < star_size m1 := by
  have hgt : (0.5 : ℝ) < 12 * Real.exp (-0.4 * ((m1 : ℝ) - 1.0)) := by
    by_contra hle
    push_neg at hle
    rw [star_size, max_eq_left hle] at h2
    exact lt_irrefl _ h2
  have e1 : star_size m1 = 12 * Real.exp (-0.4 * ((m1 : ℝ) - 1.0)) :=
    max_eq_right (le_of_lt hgt)
  rw [e1, star_size]
  exact max_lt hgt (star_size_exp_strict m1 m2 h)

/-- C4: every rendered star of magnitude m has marker size
max(0.5, 12 * exp(-0.4 * (m - 1.0))); a magnitude-1 star renders at size
exactly 12, the size never drops below 0.5, and at magnitude 20 it is
exactly 0.5. -/
theorem c4_star_marker_size :
    (∀ mag alt az hip, (star_trace mag alt az hip).marker.size
        = max 0.5 (12 * Real.exp (-0.4 * ((mag : ℝ) - 1.0))))
    ∧ star_size 1 = 12
    ∧ (∀ m : ℚ, 0.5 ≤ star_size m)
    ∧ star_size 20 = 0.5 :=
  ⟨fun _ _ _ _ => rfl, star_size_one, fun _ => le_max_left _ _,
   star_size_eq_half 20 le_rfl⟩

/-- C5 counterexample: the size function is not strictly decreasing on
every pair of magnitudes; at magnitudes 20 < 21 both sizes are clamped
to the 0.5 floor, so the size at 20 is not strictly greater than the
size at 21. -/
theorem c5_counterexample :
    (20 : ℚ) < 21 ∧ ¬ star_size 21 < star_size 20 := by
  refine ⟨by norm_num, ?_⟩
  rw [star_size_eq_half 20 le_rfl, star_size_eq_half 21 (by norm_num)]
  exact lt_irrefl _

/-- C5 (amended): the star marker size is monotonically non-increasing
in magnitude, and strictly decreasing whenever the size of the brighter
star is still above the 0.5 floor; pairs whose sizes are both clamped to
0.5 compare equal, not strictly. -/
theorem c5_size_nonincreasing (m1 m2 : ℚ) (h : m1 < m2) :
    star_size m2 ≤ star_size m1
    ∧ (0.5 < star_size m1 → star_size m2 < star_size m1) :=
  ⟨star_size_antitone m1 m2 h, star_size_strict m1 m2 h⟩

/-- C5 witness: at magnitudes 1 < 2 the size is strictly decreasing. -/
theorem c5_size_nonincreasing_witness :
    star_size 2 ≤ star_size 1 ∧ star_size 2 < star_size 1 := by
  have h := c5_size_nonincreasing 1 2 (by norm_num)
  refine ⟨h.1, h.2 ?_⟩
  rw [star_size_one]
  norm_num

/-- C1: a planet or catalog star is in the visible list iff its computed
altitude is strictly greater than 0; anything at or below the horizon is
excluded from the lists and from the rendered chart, whose every trace
comes from an object with altitude strictly above 0. -/
theorem c1_visible_iff_altitude_pos (E : Ephemeris) (stars : List StarEntry)
    (lat lon : ℚ) (year month day : ℤ) (hour : ℚ) :
    (∀ name alt az,
        (name, alt, az) ∈ planet_data E ⟨lat, lon⟩ ⟨year, month, day, hour, 0⟩
          ↔ name ∈ selected_planets
            ∧ to_altaz E (Target.body name) ⟨lat, lon⟩
                ⟨year, month, day, hour, 0⟩ = (alt, az)
            ∧ 0 < alt)
    ∧ (∀ mag alt az hip,
        (mag, alt, az, hip) ∈ star_data E stars ⟨lat, lon⟩ ⟨year, month, day, hour, 0⟩
          ↔ ∃ row, row ∈ bright_stars stars ∧ row.magnitude = mag ∧ row.hip = hip
              ∧ to_altaz E (Target.star row) ⟨lat, lon⟩
                  ⟨year, month, day, hour, 0⟩ = (alt, az)
              ∧ 0 < alt)
    ∧ (∀ tr ∈ (make_sky_map E stars lat lon year month day hour).traces,
        ∃ alt az, 0 < alt ∧ tr.r = [90 - alt] ∧ tr.theta = [az]) := by
  refine ⟨?_, ?_, ?_⟩
  · intro name alt az
    rw [planet_data_eq]
    simp only [List.mem_map, List.mem_filter, decide_eq_true_eq, Prod.ext_iff]
    constructor
    · rintro ⟨n, ⟨hmem, hpos⟩, hn, h1, h2⟩
      subst hn
      exact ⟨hmem, ⟨h1, h2⟩, h1 ▸ hpos⟩
    · rintro ⟨hmem, ⟨h1, h2⟩, hpos⟩
      exact ⟨name, ⟨hmem, h1 ▸ hpos⟩, rfl, h1, h2⟩
  · intro mag alt az hip
    rw [star_data_eq]
    simp only [List.mem_map, List.mem_filter, decide_eq_true_eq, Prod.ext_iff]
    constructor
    · rintro ⟨row, ⟨hmem, hpos⟩, hm, h1, h2, hh⟩
      exact ⟨row, hmem, hm, hh, ⟨h1, h2⟩, h1 ▸ hpos⟩
    · rintro ⟨row, hmem, hm, hh, ⟨h1, h2⟩, hpos⟩
      exact ⟨row, ⟨hmem, h1 ▸ hpos⟩, hm, h1, h2, hh⟩
  · intro tr htr
    rw [make_sky_map_eq] at htr
    rcases List.mem_append.mp htr with h | h
    · rcases List.mem_map.mp h with ⟨q, hq, rfl⟩
      exact ⟨q.2.1, q.2.2.1, star_data_alt_pos E stars _ _ q hq, rfl, rfl⟩
    · rcases List.mem_map.mp h with ⟨q, hq, rfl⟩
      exact ⟨q.2.1, q.2.2, planet_data_alt_pos E _ _ q hq, rfl, rfl⟩

/-- C1 witness: with an ephemeris answering (30, 120) for everything,
Mercury is in the visible planet list. -/
theorem c1_visible_iff_altitude_pos_witness :
    ("Mercury", (30 : ℚ), (120 : ℚ))
      ∈ planet_data (fun _ _ _ => ((30 : ℚ), (120 : ℚ))) ⟨0, 0⟩ ⟨2024, 6, 21, 22, 0⟩ :=
  ((c1_visible_iff_altitude_pos (fun _ _ _ => ((30 : ℚ), (120 : ℚ))) [] 0 0
      2024 6 21 22).1 "Mercury" 30 120).mpr ⟨by decide, rfl, by norm_num⟩

/-- C2: the bright-star subset is exactly the catalog entries of
magnitude strictly below 6; every collected star entry has magnitude
below 6; removing the faint entries changes nothing; and the projection
is never consulted on a faint entry, so two ephemerides that agree on
the bright entries produce the same star data. -/
theorem c2_magnitude_prefilter (stars : List StarEntry) (E1 E2 : Ephemeris)
    (location : Topos) (t : Instant) :
    (∀ row, row ∈ bright_stars stars ↔ row ∈ stars ∧ row.magnitude < 6)
    ∧ (∀ q ∈ star_data E1 stars location t, q.1 < 6)
    ∧ star_data E1 stars location t = star_data E1 (bright_stars stars) location t
    ∧ ((∀ row ∈ bright_stars stars,
          E1 (Target.star row) location t = E2 (Target.star row) location t)
        → star_data E1 stars location t = star_data E2 stars location t) := by
  refine ⟨?_, ?_, ?_, ?_⟩
  · intro row
    simp [bright_stars, List.mem_filter]
  · intro q hq
    rw [star_data_eq] at hq
    rcases List.mem_map.mp hq with ⟨row, hrow, rfl⟩
    have hb : row ∈ bright_stars stars := List.mem_of_mem_filter hrow
    have := (List.mem_filter.mp hb).2
    exact of_decide_eq_true this
  · unfold star_data
    rw [bright_stars_idem]
  · intro h
    rw [star_data_eq, star_data_eq]
    have hf : ((bright_stars stars).filter
          (fun row => decide (0 < (to_altaz E1 (Target.star row) location t).1)))
        = ((bright_stars stars).filter
          (fun row => decide (0 < (to_altaz E2 (Target.star row) location t).1))) := by
      apply List.filter_congr
      intro row hrow
      unfold to_altaz
      rw [h row hrow]
    rw [hf]
    apply List.map_congr_left
    intro row hrow
    have hb : row ∈ bright_stars stars := List.mem_of_mem_filter hrow
    unfold to_altaz
    rw [h row hb]

/-- C2 witness: on a catalog holding only a magnitude-7 star, two
ephemerides that disagree everywhere still produce the same (empty) star
data, because the faint star is never projected. -/
theorem c2_magnitude_prefilter_witness :
    star_data (fun _ _ _ => ((10 : ℚ), (20 : ℚ))) [⟨1, 7⟩] ⟨0, 0⟩ ⟨2024, 1, 1, 0, 0⟩
      = star_data (fun _ _ _ => ((30 : ℚ), (40 : ℚ))) [⟨1, 7⟩] ⟨0, 0⟩ ⟨2024, 1, 1, 0, 0⟩ := by
  apply (c2_magnitude_prefilter [⟨1, 7⟩] _ _ ⟨0, 0⟩ ⟨2024, 1, 1, 0, 0⟩).2.2.2
  intro row hrow
  rw [show bright_stars [⟨1, 7⟩] = [] from by decide] at hrow
  exact absurd hrow (List.not_mem_nil row)

/-- C3: every rendered trace plots at radius 90 minus the altitude of
an object with altitude strictly above 0 and angle equal to its azimuth;
when that altitude is at most 90 the radius lies in [0, 90); an object
exactly at the zenith (altitude 90) plots at radius 0. -/
theorem c3_polar_mapping (E : Ephemeris) (stars : List StarEntry)
    (lat lon : ℚ) (year month day : ℤ) (hour : ℚ) :
    (∀ tr ∈ (make_sky_map E stars lat lon year month day hour).traces,
        ∃ alt az, 0 < alt ∧ tr.r = [90 - alt] ∧ tr.theta = [az]
          ∧ (alt ≤ 90 → 0 ≤ 90 - alt ∧ 90 - alt < 90))
    ∧ (∀ name az, (planet_trace name 90 az).r = [0])
    ∧ (∀ mag az hip, (star_trace mag 90 az hip).r = [0]) := by
  refine ⟨?_, ?_, ?_⟩
  · intro tr htr
    rw [make_sky_map_eq] at htr
    rcases List.mem_append.mp htr with h | h
    · rcases List.mem_map.mp h with ⟨q, hq, rfl⟩
      have hpos := star_data_alt_pos E stars _ _ q hq
      exact ⟨q.2.1, q.2.2.1, hpos, rfl, rfl,
        fun hle => ⟨by linarith, by linarith⟩⟩
    · rcases List.mem_map.mp h with ⟨q, hq, rfl⟩
      have hpos := planet_data_alt_pos E _ _ q hq
      exact ⟨q.2.1, q.2.2, hpos, rfl, rfl,
        fun hle => ⟨by linarith, by linarith⟩⟩
  · intro name az
    show [(90 : ℚ) - 90] = [0]
    norm_num
  · intro mag az hip
    show [(90 : ℚ) - 90] = [0]
    norm_num

/-- C3 witness: the Mercury trace of a concrete chart plots at radius
90 minus a positive altitude, within [0, 90). -/
theorem c3_polar_mapping_witness :
    ∃ alt az, (0 : ℚ) < alt
      ∧ (planet_trace "Mercury" 30 120).r = [90 - alt]
      ∧ (planet_trace "Mercury" 30 120).theta = [az]
      ∧ (alt ≤ 90 → 0 ≤ 90 - alt ∧ 90 - alt < 90) := by
  apply (c3_polar_mapping (fun _ _ _ => ((30 : ℚ), (120 : ℚ))) [] 0 0 2024 6 21 22).1
  rw [make_sky_map_eq]
  apply List.mem_append_right
  exact List.mem_map.mpr ⟨("Mercury", 30, 120), by decide, rfl⟩

/-- C6: the construction is deterministic and mutation-free: running
make_sky_map leaves the shared catalog state unchanged, a second run
from the resulting state yields the identical figure, and two
ephemerides giving identical altitude/azimuth values for every target
yield identical charts. -/
theorem c6_deterministic_pure (E1 E2 : Ephemeris) (s : SkyState)
    (lat lon : ℚ) (year month day : ℤ) (hour : ℚ) :
    (run_make_sky_map E1 s lat lon year month day hour).1 = s
    ∧ (run_make_sky_map E1 (run_make_sky_map E1 s lat lon year month day hour).1
          lat lon year month day hour).2
        = (run_make_sky_map E1 s lat lon year month day hour).2
    ∧ ((∀ obj location t, to_altaz E1 obj location t = to_altaz E2 obj location t)
        → make_sky_map E1 s.stars lat lon year month day hour
            = make_sky_map E2 s.stars lat lon year month day hour) := by
  refine ⟨rfl, rfl, fun h => ?_⟩
  have hE : E1 = E2 :=
    funext fun obj => funext fun location => funext fun t => h obj location t
  rw [hE]

/-- C6 witness: two syntactically different but pointwise equal
ephemerides produce the same chart. -/
theorem c6_deterministic_pure_witness :
    make_sky_map (fun _ _ _ => ((1 : ℚ), (2 : ℚ))) [] 0 0 2024 1 1 0
      = make_sky_map (fun _ _ _ => ((2 - 1 : ℚ), (2 : ℚ))) [] 0 0 2024 1 1 0 :=
  (c6_deterministic_pure (fun _ _ _ => ((1 : ℚ), (2 : ℚ)))
      (fun _ _ _ => ((2 - 1 : ℚ), (2 : ℚ))) ⟨[]⟩ 0 0 2024 1 1 0).2.2
    (by intro obj location t; norm_num [to_altaz, Prod.ext_iff])

/-- C7: every plotted planet trace has marker size 15, a black outline
of width 1, and the color looked up by name with default lightgray; the
Moon and the Sun are absent from the color map and therefore render
lightgray. -/
theorem c7_planet_marker (E : Ephemeris) (stars : List StarEntry)
    (lat lon : ℚ) (year month day : ℤ) (hour : ℚ) :
    (∀ q ∈ planet_data E ⟨lat, lon⟩ ⟨year, month, day, hour, 0⟩,
        planet_trace q.1 q.2.1 q.2.2
            ∈ (make_sky_map E stars lat lon year month day hour).traces
        ∧ (planet_trace q.1 q.2.1 q.2.2).marker.size = 15
        ∧ (planet_trace q.1 q.2.1 q.2.2).marker.markerline = some ⟨"black", 1⟩
        ∧ (planet_trace q.1 q.2.1 q.2.2).marker.color
            = (planet_colors.lookup q.1).getD "lightgray")
    ∧ planet_colors.lookup "Moon" = none
    ∧ planet_colors.lookup "Sun" = none
    ∧ (∀ alt az, (planet_trace "Moon" alt az).marker.color = "lightgray")
    ∧ (∀ alt az, (planet_trace "Sun" alt az).marker.color = "lightgray") := by
  refine ⟨?_, by decide, by decide, fun alt az => rfl, fun alt az => rfl⟩
  intro q hq
  refine ⟨?_, rfl, rfl, rfl⟩
  rw [make_sky_map_eq]
  apply List.mem_append_right
  exact List.mem_map.mpr ⟨q, hq, rfl⟩

/-- C7 witness: the concrete Mercury trace is in the chart with size 15,
black width-1 outline, and the looked-up color. -/
theorem c7_planet_marker_witness :
    planet_trace "Mercury" 30 120
        ∈ (make_sky_map (fun _ _ _ => ((30 : ℚ), (120 : ℚ))) [] 0 0 2024 6 21 22).traces
    ∧ (planet_trace "Mercury" 30 120).marker.size = 15
    ∧ (planet_trace "Mercury" 30 120).marker.markerline = some ⟨"black", 1⟩
    ∧ (planet_trace "Mercury" 30 120).marker.color
        = (planet_colors.lookup "Mercury").getD "lightgray" :=
  (c7_planet_marker (fun _ _ _ => ((30 : ℚ), (120 : ℚ))) [] 0 0 2024 6 21 22).1
    ("Mercury", 30, 120) (by decide)

/-- C8: the request handler fails with the lookup error exactly on the
city keys absent from the fixed location table, and succeeds with the
full chart on every present key. -/
theorem c8_unknown_location (E : Ephemeris) (stars : List StarEntry)
    (city : String) (year month day : ℤ) (hour : ℚ) :
    (∀ p, locations.lookup city = some p
        → update_map E stars city year month day hour
            = Except.ok (make_sky_map E stars p.1 p.2 year month day hour))
    ∧ (locations.lookup city = none
        → update_map E stars city year month day hour = Except.error "KeyError")
    ∧ ((∃ e, update_map E stars city year month day hour = Except.error e)
        ↔ locations.lookup city = none) := by
  refine ⟨?_, ?_, ?_⟩
  · intro p hp
    unfold update_map
    rw [hp]
  · intro hn
    unfold update_map
    rw [hn]
  · unfold update_map
    rcases hl : locations.lookup city with _ | ⟨lat, lon⟩ <;> simp [hl]

/-- C8 witness: San Francisco, a present key, succeeds with its chart;
Gotham, an absent key, fails with the lookup error. -/
theorem c8_unknown_location_witness :
    update_map (fun _ _ _ => ((1 : ℚ), (2 : ℚ))) [] "San Francisco" 2024 6 21 22
      = Except.ok (make_sky_map (fun _ _ _ => ((1 : ℚ), (2 : ℚ))) []
          37.7749 (-122.4194) 2024 6 21 22)
    ∧ update_map (fun _ _ _ => ((1 : ℚ), (2 : ℚ))) [] "Gotham" 2024 6 21 22
      = Except.error "KeyError" := by
  constructor
  · exact (c8_unknown_location (fun _ _ _ => ((1 : ℚ), (2 : ℚ))) []
        "San Francisco" 2024 6 21 22).1 (37.7749, -122.4194) (by rfl)
  · exact (c8_unknown_location (fun _ _ _ => ((1 : ℚ), (2 : ℚ))) []
        "Gotham" 2024 6 21 22).2.1 (by decide)

/-- C9: the chart holds the star traces first, in catalog iteration
order, then the planet traces in the fixed order of selected_planets
restricted to the visible ones, and every trace carries exactly one
point. -/
theorem c9_trace_order (E : Ephemeris) (stars : List StarEntry)
    (lat lon : ℚ) (year month day : ℤ) (hour : ℚ) :
    (make_sky_map E stars lat lon year month day hour).traces
      = (star_data E stars ⟨lat, lon⟩ ⟨year, month, day, hour, 0⟩).map
          (fun q => star_trace q.1 q.2.1 q.2.2.1 q.2.2.2)
        ++ (planet_data E ⟨lat, lon⟩ ⟨year, month, day, hour, 0⟩).map
          (fun q => planet_trace q.1 q.2.1 q.2.2)
    ∧ (planet_data E ⟨lat, lon⟩ ⟨year, month, day, hour, 0⟩).map Prod.fst
        = selected_planets.filter
            (fun n => decide (0 < (to_altaz E (Target.body n) ⟨lat, lon⟩
                ⟨year, month, day, hour, 0⟩).1))
    ∧ (star_data E stars ⟨lat, lon⟩ ⟨year, month, day, hour, 0⟩).map
          (fun q => q.2.2.2)
        = ((bright_stars stars).filter
            (fun row => decide (0 < (to_altaz E (Target.star row) ⟨lat, lon⟩
                ⟨year, month, day, hour, 0⟩).1))).map StarEntry.hip
    ∧ (∀ tr ∈ (make_sky_map E stars lat lon year month day hour).traces,
        tr.r.length = 1 ∧ tr.theta.length = 1) := by
  refine ⟨?_, ?_, ?_, ?_⟩
  · rw [make_sky_map_eq]
  · rw [planet_data_eq, List.map_map]
    exact List.map_id _
  · rw [star_data_eq, List.map_map]
    rfl
  · intro tr htr
    rw [make_sky_map_eq] at htr
    rcases List.mem_append.mp htr with h | h <;>
      rcases List.mem_map.mp h with ⟨q, hq, rfl⟩ <;> exact ⟨rfl, rfl⟩

/-- C9 witness: the Venus trace of a concrete chart carries exactly one
point. -/
theorem c9_trace_order_witness :
    (planet_trace "Venus" 30 120).r.length = 1
    ∧ (planet_trace "Venus" 30 120).theta.length = 1 := by
  apply (c9_trace_order (fun _ _ _ => ((30 : ℚ), (120 : ℚ))) [] 0 0 2024 6 21 22).2.2.2
  rw [make_sky_map_eq]
  apply List.mem_append_right
  exact List.mem_map.mpr ⟨("Venus", 30, 120), by decide, rfl⟩

/-- C10: when every selected planet and every bright star is at or
below the horizon, the construction still returns a well-formed figure
with zero traces and the fixed dark layout. -/
theorem c10_empty_sky (E : Ephemeris) (stars : List StarEntry)
    (lat lon : ℚ) (year month day : ℤ) (hour : ℚ)
    (hp : ∀ name ∈ selected_planets,
        (to_altaz E (Target.body name) ⟨lat, lon⟩ ⟨year, month, day, hour, 0⟩).1 ≤ 0)
    (hs : ∀ row ∈ bright_stars stars,
        (to_altaz E (Target.star row) ⟨lat, lon⟩ ⟨year, month, day, hour, 0⟩).1 ≤ 0) :
    (make_sky_map E stars lat lon year month day hour).traces = []
    ∧ (make_sky_map E stars lat lon year month day hour).layout = some sky_layout := by
  rw [make_sky_map_eq]
  refine ⟨?_, rfl⟩
  rw [star_data_eq, planet_data_eq]
  have h1 : ((bright_stars stars).filter
      (fun row => decide (0 < (to_altaz E (Target.star row) ⟨lat, lon⟩
          ⟨year, month, day, hour, 0⟩).1))) = [] := by
    rw [List.filter_eq_nil_iff]
    intro row hrow
    simpa using not_lt.mpr (hs row hrow)
  have h2 : (selected_planets.filter
      (fun n => decide (0 < (to_altaz E (Target.body n) ⟨lat, lon⟩
          ⟨year, month, day, hour, 0⟩).1))) = [] := by
    rw [List.filter_eq_nil_iff]
    intro n hn
    simpa using not_lt.mpr (hp n hn)
  rw [h1, h2]
  rfl

/-- C10 witness: with an ephemeris that puts everything below the
horizon and a one-star catalog, the chart has no traces and the dark
layout. -/
theorem c10_empty_sky_witness :
    (make_sky_map (fun _ _ _ => ((-1 : ℚ), (0 : ℚ))) [⟨1, 3⟩] 0 0 2024 1 1 0).traces = []
    ∧ (make_sky_map (fun _ _ _ => ((-1 : ℚ), (0 : ℚ))) [⟨1, 3⟩] 0 0 2024 1 1 0).layout
        = some sky_layout :=
  c10_empty_sky (fun _ _ _ => ((-1 : ℚ), (0 : ℚ))) [⟨1, 3⟩] 0 0 2024 1 1 0
    (by intro name _; norm_num [to_altaz])
    (by intro row _; norm_num [to_altaz])

end StarMap
